import Mathlib

/-!
Verification of the natural-language specification of
aiida-wannier90-workflows against a shallow embedding of
src/aiida_wannier90_workflows/workflows/wannier90.py.

Modelling conventions:
* Python floats are modelled as rationals (ℚ); the literals 1e-3 and 1e-4
  become mkRat 1 1000 and mkRat 1 10000.
* A Python function that can raise an exception is modelled as a function
  into Except String; Except.error models an uncaught exception
  propagating out of the function, Except.ok a normal return.
* AiiDA workchain steps that return an exit code are modelled as functions
  returning Option Nat: some c is the exit code returned to the engine,
  none means the step finished without an exit code and the engine
  continues with the next step of the outline.
* Values produced by the external engine or by helper modules that are not
  part of the four source files (parsed output files, projectability fits,
  electron and projection counts from pseudopotential tables) appear as
  fields of the context records, exactly as the workchain reads them from
  self.ctx and from sub-workchain outputs.
-/

/-! ## Generic helpers: numpy style reductions on lists of rationals -/

/-- np.min of a 1d array: raises on an empty array, otherwise the least
element. -/
def npMin (l : List ℚ) : Except String ℚ :=
  match l with
  | [] => Except.error "zero-size array reduction has no identity"
  | x :: xs => Except.ok (xs.foldl min x)

/-- np.max of a 1d array: raises on an empty array, otherwise the greatest
element. -/
def npMax (l : List ℚ) : Except String ℚ :=
  match l with
  | [] => Except.error "zero-size array reduction has no identity"
  | x :: xs => Except.ok (xs.foldl max x)

/-! ## Sub-process inspection steps (wannier90.py lines 252-341, 461-467,
530-538, 584-592)

Each inspect step reads one finished sub-workchain from the context and
either returns the exit code dedicated to its stage (when the sub-process
did not finish successfully) or returns nothing. The context updates
performed on success (current_structure, current_folder) do not affect the
returned exit code and are not modelled here. -/

/-- The only attribute of a finished sub-process the inspect steps look
at: AiiDA is_finished_ok. -/
structure SubWorkchain where
  is_finished_ok : Bool

/-- spec.exit_code 410 (wannier90.py line 182). -/
def ERROR_SUB_PROCESS_FAILED_RELAX : Nat := 410

/-- spec.exit_code 420 (wannier90.py line 183). -/
def ERROR_SUB_PROCESS_FAILED_SCF : Nat := 420

/-- spec.exit_code 430 (wannier90.py line 184). -/
def ERROR_SUB_PROCESS_FAILED_NSCF : Nat := 430

/-- spec.exit_code 431 (wannier90.py lines 185-189); declared in define()
but never returned by any step of the workchain. -/
def ERROR_NO_FERMI_FOR_RELATIVE_DIS_WINDOWS : Nat := 431

/-- spec.exit_code 440 (wannier90.py line 190). -/
def ERROR_SUB_PROCESS_FAILED_PROJWFC : Nat := 440

/-- spec.exit_code 450 (wannier90.py lines 191-195). -/
def ERROR_SUB_PROCESS_FAILED_WANNIER90PP : Nat := 450

/-- spec.exit_code 460 (wannier90.py lines 196-198). -/
def ERROR_SUB_PROCESS_FAILED_PW2WANNIER90 : Nat := 460

/-- spec.exit_code 470 (wannier90.py lines 199-201). -/
def ERROR_SUB_PROCESS_FAILED_WANNIER90 : Nat := 470

/-- Wannier90WorkChain.inspect_relax (lines 252-260). -/
def inspect_relax (w : SubWorkchain) : Option Nat :=
  if w.is_finished_ok then none else some ERROR_SUB_PROCESS_FAILED_RELAX

/-- Wannier90WorkChain.inspect_scf (lines 278-286). -/
def inspect_scf (w : SubWorkchain) : Option Nat :=
  if w.is_finished_ok then none else some ERROR_SUB_PROCESS_FAILED_SCF

/-- Wannier90WorkChain.inspect_nscf (lines 305-313). -/
def inspect_nscf (w : SubWorkchain) : Option Nat :=
  if w.is_finished_ok then none else some ERROR_SUB_PROCESS_FAILED_NSCF

/-- Wannier90WorkChain.inspect_projwfc (lines 334-340). -/
def inspect_projwfc (w : SubWorkchain) : Option Nat :=
  if w.is_finished_ok then none else some ERROR_SUB_PROCESS_FAILED_PROJWFC

/-- Wannier90WorkChain.inspect_wannier90_pp (lines 461-467). -/
def inspect_wannier90_pp (w : SubWorkchain) : Option Nat :=
  if w.is_finished_ok then none else some ERROR_SUB_PROCESS_FAILED_WANNIER90PP

/-- Wannier90WorkChain.inspect_pw2wannier90 (lines 530-538). -/
def inspect_pw2wannier90 (w : SubWorkchain) : Option Nat :=
  if w.is_finished_ok then none else some ERROR_SUB_PROCESS_FAILED_PW2WANNIER90

/-- Wannier90WorkChain.inspect_wannier90 (lines 584-592). -/
def inspect_wannier90 (w : SubWorkchain) : Option Nat :=
  if w.is_finished_ok then none else some ERROR_SUB_PROCESS_FAILED_WANNIER90

/-! ## The outline (wannier90.py lines 147-172, 236-238, 262-264, 288-290,
315-320) -/

/-- The steps named in spec.outline. -/
inductive W90Step where
  | setup
  | run_relax
  | inspect_relax_step
  | run_scf
  | inspect_scf_step
  | run_nscf
  | inspect_nscf_step
  | run_projwfc
  | inspect_projwfc_step
  | run_wannier90_pp
  | inspect_wannier90_pp_step
  | run_pw2wannier90
  | inspect_pw2wannier90_step
  | run_wannier90
  | inspect_wannier90_step
  | results_step
deriving DecidableEq

/-- Which optional input namespaces were provided to the workchain. The
namespaces relax, scf, nscf and projwfc are declared with required=False;
pw2wannier90 and wannier90 are always present. -/
structure OutlineInputs where
  relax : Bool
  scf : Bool
  nscf : Bool
  projwfc : Bool

/-- Wannier90WorkChain.should_run_relax (lines 236-238). -/
def should_run_relax (i : OutlineInputs) : Bool := i.relax

/-- Wannier90WorkChain.should_run_scf (lines 262-264). -/
def should_run_scf (i : OutlineInputs) : Bool := i.scf

/-- Wannier90WorkChain.should_run_nscf (lines 288-290). -/
def should_run_nscf (i : OutlineInputs) : Bool := i.nscf

/-- Wannier90WorkChain.should_run_projwfc (lines 315-320). -/
def should_run_projwfc (i : OutlineInputs) : Bool := i.projwfc

/-- spec.outline (lines 147-172): the sequence of steps the engine runs,
in order, for a given set of provided input namespaces. An if_ block
contributes its steps exactly when its condition holds. -/
def outline (i : OutlineInputs) : List W90Step :=
  [W90Step.setup]
  ++ (if should_run_relax i then [W90Step.run_relax, W90Step.inspect_relax_step] else [])
  ++ (if should_run_scf i then [W90Step.run_scf, W90Step.inspect_scf_step] else [])
  ++ (if should_run_nscf i then [W90Step.run_nscf, W90Step.inspect_nscf_step] else [])
  ++ (if should_run_projwfc i then [W90Step.run_projwfc, W90Step.inspect_projwfc_step] else [])
  ++ [W90Step.run_wannier90_pp, W90Step.inspect_wannier90_pp_step,
      W90Step.run_pw2wannier90, W90Step.inspect_pw2wannier90_step,
      W90Step.run_wannier90, W90Step.inspect_wannier90_step,
      W90Step.results_step]

/-- The outline with every conditional block enabled: the full fixed order
relax, scf, nscf, projwfc, wannier90 postproc, pw2wannier90, wannier90,
results. -/
def fullOutline : List W90Step := outline ⟨true, true, true, true⟩

/-- Whether a step of the full outline is enabled for the given inputs:
the four conditional stages follow their namespace, all other steps are
unconditional. -/
def stepEnabled (i : OutlineInputs) : W90Step → Bool
  | W90Step.run_relax => i.relax
  | W90Step.inspect_relax_step => i.relax
  | W90Step.run_scf => i.scf
  | W90Step.inspect_scf_step => i.scf
  | W90Step.run_nscf => i.nscf
  | W90Step.inspect_nscf_step => i.nscf
  | W90Step.run_projwfc => i.projwfc
  | W90Step.inspect_projwfc_step => i.projwfc
  | _ => true

/-! ## validate_inputs (wannier90.py lines 203-227) -/

/-- The part of the nscf input namespace validate_inputs looks at:
whether nscf.pw carries a parent_folder. -/
structure NscfNamespace where
  parent_folder : Bool

/-- The part of the wannier90 input namespace validate_inputs looks at. -/
structure WannierNamespace where
  bands_plot : Bool
  kpoint_path : Bool
  explicit_kpoint_path : Bool

/-- The inputpp namelist of the pw2wannier90 parameters, as read by
validate_inputs: inputpp.get("scdm_proj", False). -/
structure Pw2wInputpp where
  scdm_proj : Bool

/-- The part of the pw2wannier90 input namespace validate_inputs looks
at. The parameters Dict may lack the inputpp key entirely; the bare
subscript at line 226 then raises a KeyError, but only when
auto_froz_max is truthy, because the Python and short-circuits. -/
structure Pw2wNamespace where
  inputpp : Option Pw2wInputpp

/-- The whole input namespace as seen by validate_inputs. scf is optional
(modelled by a Bool for presence, its contents are not read); nscf is
optional and is read only when scf is absent. -/
structure WcInputs where
  scf : Bool
  nscf : Option NscfNamespace
  wannier90 : WannierNamespace
  pw2wannier90 : Pw2wNamespace
  auto_froz_max : Bool

/-- Wannier90WorkChain.validate_inputs (lines 203-227). Except.error
models an uncaught Python exception: the KeyError raised by
inputs["nscf"] when neither scf nor nscf was provided, and the KeyError
raised by the inputpp subscript at line 226 when auto_froz_max is truthy
and the pw2wannier90 parameters lack an inputpp entry. Except.ok (some
msg) is the validator returning an error message, Except.ok none the
validator accepting the inputs. -/
def validate_inputs (i : WcInputs) : Except String (Option String) :=
  match (if i.scf then Except.ok none
         else match i.nscf with
              | none => Except.error "KeyError: nscf"
              | some n =>
                Except.ok (if n.parent_folder then none
                           else some "If skipping scf step, nscf inputs must have a parent_folder")) with
  | Except.error e => Except.error e
  | Except.ok (some msg) => Except.ok (some msg)
  | Except.ok none =>
    if i.wannier90.bands_plot && !i.wannier90.kpoint_path && !i.wannier90.explicit_kpoint_path then
      Except.ok (some "bands_plot is True but no kpoint_path or explicit_kpoint_path provided")
    else if i.auto_froz_max then
      match i.pw2wannier90.inputpp with
      | none => Except.error "KeyError: inputpp"
      | some ipp =>
        if ipp.scdm_proj then Except.ok (some "auto_froz_max is incompatible with SCDM")
        else Except.ok none
    else
      Except.ok none

/-! ## prepare_wannier90_inputs (wannier90.py lines 342-433) and its
helpers get_fermi_energy (1367-1382), get_homo_lumo (1520-1536) -/

/-- The scf sub-workchain outputs read by prepare_wannier90_inputs:
the output_parameters entries used by get_fermi_energy, and output_band
as a kpoints-by-bands matrix of energies. -/
structure ScfOutputs where
  fermi_energy : Option ℚ
  fermi_energy_units : Option String
  output_band : List (List ℚ)

/-- The nscf sub-workchain outputs read by prepare_wannier90_inputs.
parsed_scf_fermi is the value get_scf_fermi_energy (lines 1479-1517)
extracts with a regular expression from the retrieved aiida.out file;
the file content is external data, so the parse result is carried as a
field. -/
structure NscfOutputs where
  parsed_scf_fermi : Option ℚ
  output_band : List (List ℚ)

/-- The context and inputs prepare_wannier90_inputs reads.
energy_of_projectability is the value returned by
get_energy_of_projectability (utils/scdm, an external numeric fit over
the projwfc outputs), carried as a field. -/
structure W90Ctx where
  workchain_scf : Option ScfOutputs
  workchain_nscf : Option NscfOutputs
  energy_of_projectability : ℚ
  relative_dis_windows : Bool
  auto_froz_max : Bool

/-- The wannier90 parameter dict entries that prepare_wannier90_inputs
reads or writes, each optional key as an Option field. num_wann is read
unconditionally once dis_froz_max is present, so it is a plain field. -/
structure W90Params where
  fermi_energy : Option ℚ := none
  dis_froz_min : Option ℚ := none
  dis_froz_max : Option ℚ := none
  dis_win_min : Option ℚ := none
  dis_win_max : Option ℚ := none
  exclude_bands : Option (List Nat) := none
  num_wann : Nat

/-- get_fermi_energy (lines 1367-1382): None unless the units entry is
the string eV, otherwise the fermi_energy entry (itself possibly absent). -/
def get_fermi_energy (s : ScfOutputs) : Option ℚ :=
  if s.fermi_energy_units = some "eV" then s.fermi_energy else none

/-- Lines 358-363: the Fermi energy prepare_wannier90_inputs obtains,
from the scf output parameters when an scf workchain ran, else from the
nscf output file when an nscf workchain ran, else None. -/
def ctxFermi (c : W90Ctx) : Option ℚ :=
  match c.workchain_scf with
  | some s => get_fermi_energy s
  | none =>
    match c.workchain_nscf with
    | some n => n.parsed_scf_fermi
    | none => none

/-- Lines 377-382: the band structure used for the band-gap test, scf
first. -/
def shiftBands (c : W90Ctx) : Option (List (List ℚ)) :=
  match c.workchain_scf with
  | some s => some s.output_band
  | none => Option.map NscfOutputs.output_band c.workchain_nscf

/-- Lines 408-411: the band structure used for the dis_froz_max cap,
nscf first (note the opposite preference to shiftBands); when neither ran
the attribute access raises. -/
def clampBands (c : W90Ctx) : Option (List (List ℚ)) :=
  match c.workchain_nscf with
  | some n => some n.output_band
  | none => Option.map ScfOutputs.output_band c.workchain_scf

/-- get_homo_lumo (lines 1520-1536): the maximum of the entries at most
fermi and the minimum of the entries above fermi, over every k-point and
band; np.max and np.min raise when their argument is empty. -/
def get_homo_lumo (bands : List (List ℚ)) (fermi : ℚ) : Except String (ℚ × ℚ) :=
  match npMax ((bands.flatten).filter (fun x => decide (x ≤ fermi))),
        npMin ((bands.flatten).filter (fun x => decide (fermi < x))) with
  | Except.ok homo, Except.ok lumo => Except.ok (homo, lumo)
  | Except.error e, _ => Except.error e
  | _, Except.error e => Except.error e

/-- Lines 365-367: add the Fermi energy to the parameters. The Python
test is the truthiness of a float, so a Fermi energy of exactly zero is
not added. -/
def addFermiStage (fermi : Option ℚ) (p : W90Params) : W90Params :=
  match fermi with
  | some f => if f ≠ 0 then { p with fermi_energy := some f } else p
  | none => p

/-- Lines 390-393: add the same shift to each of the four window
parameters that is present. -/
def shiftWindowParams (p : W90Params) (shift : ℚ) : W90Params :=
  { p with
    dis_froz_min := Option.map (· + shift) p.dis_froz_min,
    dis_froz_max := Option.map (· + shift) p.dis_froz_max,
    dis_win_min := Option.map (· + shift) p.dis_win_min,
    dis_win_max := Option.map (· + shift) p.dis_win_max }

/-- Lines 369-393: the relative_dis_windows block. When the flag is set
and no Fermi energy was found, a ValueError is raised (not an exit code).
Otherwise the shift is the LUMO when the band gap exceeds 1e-3 and the
Fermi energy otherwise. -/
def shiftStage (c : W90Ctx) (fermi : Option ℚ) (p : W90Params) : Except String W90Params :=
  if c.relative_dis_windows then
    match fermi with
    | none =>
      Except.error "relative_dis_windows = True but cannot retrieve Fermi energy from scf or nscf output"
    | some f =>
      match shiftBands c with
      | none => Except.error "No output scf or nscf bands, cannot calculate bandgap"
      | some bands =>
        match get_homo_lumo bands f with
        | Except.error e => Except.error e
        | Except.ok (homo, lumo) =>
          Except.ok (shiftWindowParams p (if lumo - homo > mkRat 1 1000 then lumo else f))
  else
    Except.ok p

/-- Lines 395-403: when auto_froz_max is set, dis_froz_max is overwritten
with the energy of projectability computed from the projwfc outputs. -/
def autoFrozStage (c : W90Ctx) (p : W90Params) : W90Params :=
  if c.auto_froz_max then { p with dis_froz_max := some c.energy_of_projectability } else p

/-- Modelled from the spec: remove_exclude_bands
(aiida_wannier90_workflows.utils.bandsdist, not among the four source
files) removes, from each k-point row of the band matrix, the entries at
the given 0-based band indices. -/
def remove_exclude_bands (bands : List (List ℚ)) (exclude : List Nat) : List (List ℚ) :=
  bands.map (fun row => (row.enum.filter (fun q => decide (q.1 ∉ exclude))).map Prod.snd)

/-- Lines 412-417: the band matrix after the optional removal of the
excluded bands; the Python test is the truthiness of the list, so an
empty exclude_bands list removes nothing. -/
def removedBands (p : W90Params) (bands : List (List ℚ)) : List (List ℚ) :=
  match p.exclude_bands with
  | some l => if l = [] then bands else remove_exclude_bands bands (l.map (· - 1))
  | none => bands

/-- Column j of the band matrix (bands[:, j]); raises when a row is too
short. -/
def bandColumn (bands : List (List ℚ)) (j : Nat) : Except String (List ℚ) :=
  bands.mapM (fun row =>
    match row.get? j with
    | some x => Except.ok x
    | none => Except.error "IndexError: index out of bounds")

/-- Lines 405-427: when dis_froz_max is present it is capped by the
minimum over the k-points of band number num_wann (1-based, counted after
removing the excluded bands) minus 1e-4. -/
def clampStage (c : W90Ctx) (p : W90Params) : Except String W90Params :=
  match p.dis_froz_max with
  | none => Except.ok p
  | some v =>
    match clampBands c with
    | none => Except.error "AttributeError: workchain_scf"
    | some bands =>
      match bandColumn (removedBands p bands) (p.num_wann - 1) with
      | Except.error e => Except.error e
      | Except.ok highest =>
        match npMin highest with
        | Except.error e => Except.error e
        | Except.ok m => Except.ok { p with dis_froz_max := some (min (m - mkRat 1 10000) v) }

/-- Wannier90WorkChain.prepare_wannier90_inputs (lines 342-433), as the
transformation it performs on the wannier90 parameter dict. -/
def prepare_wannier90_inputs (c : W90Ctx) (p : W90Params) : Except String W90Params :=
  match shiftStage c (ctxFermi c) (addFermiStage (ctxFermi c) p) with
  | Except.error e => Except.error e
  | Except.ok p2 => clampStage c (autoFrozStage c p2)

/-! ## The sanity checks of the results step (wannier90.py lines 616-643) -/

/-- The projwfc outputs read by the results step: the length of
projections.get_orbitals(). -/
structure ProjwfcOutputs where
  num_orbitals : Nat

/-- What the results step reads for its two sanity checks.
number_of_projections is the value of get_number_of_projections applied
to the current structure and pseudos with the spinors flag of the
wannier90 parameters (utils/upf, not among the four source files);
number_of_electrons the value of get_number_of_electrons; the qe fields
are the corresponding quantities reported by the QE outputs. -/
structure ResultsCtx where
  calc_projwfc : Option ProjwfcOutputs
  number_of_projections : Nat
  number_of_electrons : ℚ
  qe_number_of_electrons : ℚ

/-- The second sanity check (lines 636-643): the number of electrons must
match the QE output. -/
def electronCheck (c : ResultsCtx) : Except String Unit :=
  if c.number_of_electrons ≠ c.qe_number_of_electrons then
    Except.error "number of electrons does not match QE output"
  else
    Except.ok ()

/-- The sanity checks of Wannier90WorkChain.results (lines 616-643); the
output recording that precedes them always succeeds and is not modelled.
Except.error models the ValueError the step raises. -/
def results_checks (c : ResultsCtx) : Except String Unit :=
  match c.calc_projwfc with
  | some pj =>
    if c.number_of_projections ≠ pj.num_orbitals then
      Except.error "number of projections does not match projwfc output"
    else
      electronCheck c
  | none => electronCheck c

/-! ## update_scdm_mu_sigma (wannier90.py lines 1385-1411) -/

/-- A Python dict as an association list; lookup returns the first
binding. The value type is abstract because the pw2wannier90 parameters
mix floats, bools and strings. -/
def dictLookup {V : Type} (d : List (String × V)) (k : String) : Option V :=
  List.lookup k d

/-- dict.__setitem__: replace the binding when the key is present,
append it otherwise. -/
def dictSet {V : Type} (d : List (String × V)) (k : String) (v : V) : List (String × V) :=
  if (dictLookup d k).isSome then
    d.map (fun q => if q.1 = k then (k, v) else q)
  else
    d ++ [(k, v)]

/-- dict.update: set every binding of the second dict in turn. -/
def dictUpdate {V : Type} (d other : List (String × V)) : List (String × V) :=
  other.foldl (fun acc q => dictSet acc q.1 q.2) d

/-- The pw2wannier90 parameters: the inputpp namelist plus the remaining
top-level entries, which update_scdm_mu_sigma never touches. -/
structure Pw2wParameters (V : Type) where
  inputpp : List (String × V)
  outer : List (String × V)

/-- update_scdm_mu_sigma (lines 1385-1411). mu_new and sigma_new are the
two values returned by fit_scdm_mu_sigma_aiida (utils/scdm, an external
curve fit over the projwfc outputs), passed in as arguments. Only the
missing keys among scdm_mu and scdm_sigma are added to inputpp. -/
def update_scdm_mu_sigma {V : Type} (p : Pw2wParameters V) (mu_new sigma_new : V) :
    Pw2wParameters V :=
  let scdm_parameters :=
    (if (dictLookup p.inputpp "scdm_mu").isSome then [] else [("scdm_mu", mu_new)])
    ++ (if (dictLookup p.inputpp "scdm_sigma").isSome then [] else [("scdm_sigma", sigma_new)])
  { p with inputpp := dictUpdate p.inputpp scdm_parameters }

/-! ## get_semicore_list (wannier90.py lines 1437-1476) -/

/-- One entry of the pseudo-orbitals table: the ordered pseudo
wavefunction labels of a kind and the subset that is semicore. -/
structure OrbitalEntry where
  pswfcs : List String
  semicores : List String

/-- label2num (line 1460) applied to one character: how many orbitals an
S, P, D or F label occupies; any other character is a KeyError. -/
def label2num : Char → Option Nat
  | 'S' => some 1
  | 'P' => some 3
  | 'D' => some 5
  | 'F' => some 7
  | _ => none

/-- orb[-1]: the last character of a label; an empty label is an
IndexError. -/
def lastChar (s : String) : Option Char := s.data.getLast?

/-- The number of positions a label occupies, when its last character is
a valid angular-momentum letter. -/
def orbNum (s : String) : Nat := ((lastChar s).bind label2num).getD 0

/-- Whether label2num accepts the last character of the label. -/
def validOrb (s : String) : Bool := ((lastChar s).bind label2num).isSome

/-- The total number of positions occupied by a list of labels. -/
def siteWeight (pswfcs : List String) : Nat := (pswfcs.map orbNum).sum

/-- The inner loop of get_semicore_list (lines 1468-1473) over the pswfcs
of one site: returns the collected 1-based positions, the leftover
semicore labels and the updated position counter; Except.error is the
KeyError or IndexError raised on a malformed label. -/
def siteLoop : List String → List String → Nat → Except String (List Nat × List String × Nat)
  | [], sem, n => Except.ok ([], sem, n)
  | orb :: rest, sem, n =>
    match lastChar orb with
    | none => Except.error "IndexError: string index out of range"
    | some ch =>
      match label2num ch with
      | none => Except.error "KeyError: label2num"
      | some m =>
        if orb ∈ sem then
          match siteLoop rest (sem.erase orb) (n + m) with
          | Except.ok (ps, semRest, nFinal) =>
            Except.ok (List.range' (n + 1) m ++ ps, semRest, nFinal)
          | Except.error e => Except.error e
        else
          siteLoop rest sem (n + m)

/-- The value get_semicore_list hands back to its caller: either the list
of 1-based semicore positions, or a ValueError instance returned (not
raised) for the offending kind (line 1475). -/
inductive SemicoreReturn where
  | indices (l : List Nat)
  | valueErrorObj (kind : String)
deriving DecidableEq

/-- The outer loop of get_semicore_list (lines 1463-1475) over the sites
of the structure, threading the position counter across sites. -/
def sitesLoop (tbl : String → OrbitalEntry) : List String → Nat → Except String SemicoreReturn
  | [], _ => Except.ok (SemicoreReturn.indices [])
  | kind :: rest, n =>
    match siteLoop (tbl kind).pswfcs (tbl kind).semicores n with
    | Except.error e => Except.error e
    | Except.ok (ps, semRest, nNext) =>
      if semRest = [] then
        match sitesLoop tbl rest nNext with
        | Except.ok (SemicoreReturn.indices tail) => Except.ok (SemicoreReturn.indices (ps ++ tail))
        | other => other
      else
        Except.ok (SemicoreReturn.valueErrorObj kind)

/-- get_semicore_list (lines 1437-1476): sites is the list of kind names
of structure.sites in order, tbl the pseudo-orbitals table. -/
def get_semicore_list (sites : List String) (tbl : String → OrbitalEntry) :
    Except String SemicoreReturn :=
  sitesLoop tbl sites 0

/-- The positions the claim describes for one site, stated independently
of the loop: a label occupies the next 1, 3, 5 or 7 consecutive
positions, and contributes them exactly when it is a semicore label. -/
def sitePositions (sem : List String) : List String → Nat → List Nat
  | [], _ => []
  | orb :: rest, n =>
    (if orb ∈ sem then List.range' (n + 1) (orbNum orb) else [])
    ++ sitePositions sem rest (n + orbNum orb)

/-- The positions the claim describes for the whole structure,
accumulating the position counter over the sites in order. -/
def expectedPositions (tbl : String → OrbitalEntry) : List String → Nat → List Nat
  | [], _ => []
  | kind :: rest, n =>
    sitePositions (tbl kind).semicores (tbl kind).pswfcs n
    ++ expectedPositions tbl rest (n + siteWeight (tbl kind).pswfcs)

/-- Whether get_semicore_list hands back a ValueError instance as its
ordinary return value. -/
def isValueErrorReturn : Except String SemicoreReturn → Bool
  | Except.ok (SemicoreReturn.valueErrorObj _) => true
  | _ => false

/-- A context with relative_dis_windows set whose scf output parameters
carry no Fermi energy (no units entry), as parsed by get_fermi_energy. -/
def noFermiScfCtx : W90Ctx :=
  { workchain_scf := some ⟨none, none, [[1]]⟩,
    workchain_nscf := none,
    energy_of_projectability := 0,
    relative_dis_windows := true,
    auto_froz_max := false }

/-- A context with relative_dis_windows set and neither an scf nor an
nscf workchain in the context. -/
def noFermiEmptyCtx : W90Ctx :=
  { workchain_scf := none,
    workchain_nscf := none,
    energy_of_projectability := 0,
    relative_dis_windows := true,
    auto_froz_max := false }

/-- A wannier90 parameter dict with some of the four window parameters
present. -/
def windowParamsW : W90Params :=
  { dis_froz_min := some 2, dis_win_min := some (-1), dis_win_max := some 10, num_wann := 1 }

/-- A context whose scf workchain reports Fermi energy 5 in eV with an
insulating band structure (occupied 1, unoccupied 7). -/
def shiftCtxW : W90Ctx :=
  { workchain_scf := some ⟨some 5, some "eV", [[1, 7]]⟩,
    workchain_nscf := none,
    energy_of_projectability := 0,
    relative_dis_windows := true,
    auto_froz_max := false }

/-- A context whose nscf workchain produced the two-k-point band
structure [[1,5],[2,6]]. -/
def clampCtxW : W90Ctx :=
  { workchain_scf := none,
    workchain_nscf := some ⟨none, [[1, 5], [2, 6]]⟩,
    energy_of_projectability := 0,
    relative_dis_windows := false,
    auto_froz_max := false }

/-- A wannier90 parameter dict with dis_froz_max present, one excluded
band and num_wann 1. -/
def clampParamsW : W90Params :=
  { dis_froz_max := some 100, exclude_bands := some [1], num_wann := 1 }

/-- A pseudo-orbitals table whose semicores list repeats a label. -/
def dupSemicoreTbl : String → OrbitalEntry := fun _ => ⟨["5S"], ["5S", "5S"]⟩

/-- The SSSP table entry for Ce quoted in the source comment (lines
1454-1459). -/
def ceTbl : String → OrbitalEntry := fun k =>
  if k = "Ce" then ⟨["5S", "6S", "5P", "6P", "5D", "6D", "4F", "5F"], ["5S", "5P"]⟩
  else ⟨[], []⟩

/-- A table whose semicore label does not occur among the pswfcs. -/
def badSemicoreTbl : String → OrbitalEntry := fun _ => ⟨["5S"], ["6S"]⟩

/-- A table whose semicore label does not occur among the pswfcs and
whose single pswfcs label does not end in S, P, D or F. -/
def keyErrorTbl : String → OrbitalEntry := fun _ => ⟨["5X"], ["6S"]⟩

/-- C1: for each of the seven sub-process stages (relax, scf, nscf,
projwfc, wannier90 post-processing, pw2wannier90, wannier90), the inspect
step returns the dedicated exit code 410, 420, 430, 440, 450, 460, 470
respectively exactly when the sub-process did not finish successfully,
and returns nothing (letting the engine continue with the next outline
step) when it finished successfully. -/
theorem inspect_steps_exit_code_iff_failure (w : SubWorkchain) :
    (inspect_relax w = some 410 ↔ w.is_finished_ok = false) ∧
    (w.is_finished_ok = true → inspect_relax w = none) ∧
    (inspect_scf w = some 420 ↔ w.is_finished_ok = false) ∧
    (w.is_finished_ok = true → inspect_scf w = none) ∧
    (inspect_nscf w = some 430 ↔ w.is_finished_ok = false) ∧
    (w.is_finished_ok = true → inspect_nscf w = none) ∧
    (inspect_projwfc w = some 440 ↔ w.is_finished_ok = false) ∧
    (w.is_finished_ok = true → inspect_projwfc w = none) ∧
    (inspect_wannier90_pp w = some 450 ↔ w.is_finished_ok = false) ∧
    (w.is_finished_ok = true → inspect_wannier90_pp w = none) ∧
    (inspect_pw2wannier90 w = some 460 ↔ w.is_finished_ok = false) ∧
    (w.is_finished_ok = true → inspect_pw2wannier90 w = none) ∧
    (inspect_wannier90 w = some 470 ↔ w.is_finished_ok = false) ∧
    (w.is_finished_ok = true → inspect_wannier90 w = none) := by
  obtain ⟨b⟩ := w
  cases b <;> decide

/-- Witness for C1 at concrete sub-process states: a failed scf
sub-process yields exit code 420, a successful wannier90 sub-process
yields no exit code. -/
theorem inspect_steps_exit_code_iff_failure_witness :
    inspect_scf ⟨false⟩ = some 420 ∧ inspect_wannier90 ⟨true⟩ = none :=
  ⟨(inspect_steps_exit_code_iff_failure ⟨false⟩).2.2.1.mpr rfl,
   (inspect_steps_exit_code_iff_failure ⟨true⟩).2.2.2.2.2.2.2.2.2.2.2.2.2 rfl⟩

/-- C3: the outline runs the stages in the fixed order relax, scf, nscf,
projwfc, wannier90 post-processing, pw2wannier90, wannier90, results (the
executed list is the full ordered outline filtered by the enabled steps,
hence a sublist of the full order); each of the four conditional stages
runs exactly when its input namespace was provided, and the remaining
steps run unconditionally. Steps are executed sequentially by the engine,
each one starting only after the previous list entry completed. -/
theorem outline_order_and_conditional_steps (i : OutlineInputs) :
    outline i = fullOutline.filter (stepEnabled i) ∧
    List.Sublist (outline i) fullOutline ∧
    (W90Step.run_relax ∈ outline i ↔ should_run_relax i = true) ∧
    (W90Step.run_scf ∈ outline i ↔ should_run_scf i = true) ∧
    (W90Step.run_nscf ∈ outline i ↔ should_run_nscf i = true) ∧
    (W90Step.run_projwfc ∈ outline i ↔ should_run_projwfc i = true) ∧
    W90Step.setup ∈ outline i ∧
    W90Step.run_wannier90_pp ∈ outline i ∧
    W90Step.run_pw2wannier90 ∈ outline i ∧
    W90Step.run_wannier90 ∈ outline i ∧
    W90Step.results_step ∈ outline i := by
  obtain ⟨r, s, n, pj⟩ := i
  cases r <;> cases s <;> cases n <;> cases pj <;> decide

/-- Witness for C3: with only the scf and nscf namespaces provided, the
scf stage is in the executed outline and the executed outline is the
filtered full order. -/
theorem outline_order_and_conditional_steps_witness :
    outline ⟨false, true, true, false⟩ = fullOutline.filter (stepEnabled ⟨false, true, true, false⟩) ∧
    W90Step.run_scf ∈ outline ⟨false, true, true, false⟩ :=
  ⟨(outline_order_and_conditional_steps ⟨false, true, true, false⟩).1,
   (outline_order_and_conditional_steps ⟨false, true, true, false⟩).2.2.2.1.mpr rfl⟩

/-- Counterexample for C9: two input sets on which validate_inputs
raises a KeyError instead of returning an error message or passing, so
the validator does not reject in exactly the three listed cases and pass
otherwise. The first provides neither the scf nor the nscf namespace
(KeyError at inputs["nscf"], line 208); the second sets auto_froz_max
while its pw2wannier90 parameters lack an inputpp entry (KeyError at the
inputpp subscript, line 226). -/
theorem validate_inputs_key_error_counterexample :
    validate_inputs ⟨false, none, ⟨false, false, false⟩, ⟨some ⟨false⟩⟩, false⟩ =
      Except.error "KeyError: nscf" ∧
    validate_inputs ⟨true, none, ⟨false, false, false⟩, ⟨none⟩, true⟩ =
      Except.error "KeyError: inputpp" :=
  ⟨rfl, rfl⟩

/-- C9 (amended): provided the nscf namespace is present whenever the scf
namespace is absent, and the pw2wannier90 parameters contain an inputpp
entry whenever auto_froz_max is set (in either remaining situation the
validator raises a KeyError instead of returning), validate_inputs
returns without raising, rejects with a message in exactly the three
listed cases, and passes (returns nothing) on every other input set. -/
theorem validate_inputs_three_cases (i : WcInputs)
    (h : i.scf = false → i.nscf.isSome = true)
    (h2 : i.auto_froz_max = true → i.pw2wannier90.inputpp.isSome = true) :
    ∃ r, validate_inputs i = Except.ok r ∧
      (r = none ↔
        ¬ ((i.scf = false ∧ ∃ n, i.nscf = some n ∧ n.parent_folder = false) ∨
           (i.wannier90.bands_plot = true ∧ i.wannier90.kpoint_path = false ∧
             i.wannier90.explicit_kpoint_path = false) ∨
           (i.auto_froz_max = true ∧
             ∃ ipp, i.pw2wannier90.inputpp = some ipp ∧ ipp.scdm_proj = true))) := by
  obtain ⟨s, nf, ⟨bp, kp, ekp⟩, ⟨ipp⟩, afm⟩ := i
  have hnf : s = false → ∃ nn, nf = some nn := by
    intro hs
    rcases nf with _ | nn
    · rw [hs] at h
      simp at h
    · exact ⟨nn, rfl⟩
  have hipp : afm = true → ∃ ii, ipp = some ii := by
    intro ha
    rcases ipp with _ | ii
    · rw [ha] at h2
      simp at h2
    · exact ⟨ii, rfl⟩
  cases s with
  | false =>
    obtain ⟨⟨pf⟩, rfl⟩ := hnf rfl
    cases afm with
    | true =>
      obtain ⟨⟨sp⟩, rfl⟩ := hipp rfl
      cases pf <;> cases bp <;> cases kp <;> cases ekp <;> cases sp <;>
        exact ⟨_, rfl, by decide⟩
    | false =>
      cases ipp with
      | none =>
        cases pf <;> cases bp <;> cases kp <;> cases ekp <;> exact ⟨_, rfl, by decide⟩
      | some ii =>
        obtain ⟨sp⟩ := ii
        cases pf <;> cases bp <;> cases kp <;> cases ekp <;> cases sp <;>
          exact ⟨_, rfl, by decide⟩
  | true =>
    cases afm with
    | true =>
      obtain ⟨⟨sp⟩, rfl⟩ := hipp rfl
      cases nf with
      | none => cases bp <;> cases kp <;> cases ekp <;> cases sp <;> exact ⟨_, rfl, by decide⟩
      | some nn =>
        obtain ⟨pf⟩ := nn
        cases pf <;> cases bp <;> cases kp <;> cases ekp <;> cases sp <;>
          exact ⟨_, rfl, by decide⟩
    | false =>
      cases nf with
      | none =>
        cases ipp with
        | none => cases bp <;> cases kp <;> cases ekp <;> exact ⟨_, rfl, by decide⟩
        | some ii =>
          obtain ⟨sp⟩ := ii
          cases bp <;> cases kp <;> cases ekp <;> cases sp <;> exact ⟨_, rfl, by decide⟩
      | some nn =>
        obtain ⟨pf⟩ := nn
        cases ipp with
        | none =>
          cases pf <;> cases bp <;> cases kp <;> cases ekp <;> exact ⟨_, rfl, by decide⟩
        | some ii =>
          obtain ⟨sp⟩ := ii
          cases pf <;> cases bp <;> cases kp <;> cases ekp <;> cases sp <;>
            exact ⟨_, rfl, by decide⟩

/-- Witness for C9 at a concrete input set: scf absent, nscf present with
a parent_folder, inputpp present without scdm_proj, no bands_plot, no
auto_froz_max; the validator accepts. -/
theorem validate_inputs_three_cases_witness :
    ∃ r, validate_inputs
        ⟨false, some ⟨true⟩, ⟨false, false, false⟩, ⟨some ⟨false⟩⟩, false⟩ =
        Except.ok r ∧
      (r = none ↔
        ¬ (((false : Bool) = false ∧
              ∃ n, (some (NscfNamespace.mk true) : Option NscfNamespace) = some n ∧
                n.parent_folder = false) ∨
           ((false : Bool) = true ∧ (false : Bool) = false ∧ (false : Bool) = false) ∨
           ((false : Bool) = true ∧
             ∃ ipp, (some (Pw2wInputpp.mk false) : Option Pw2wInputpp) = some ipp ∧
               ipp.scdm_proj = true))) :=
  validate_inputs_three_cases
    ⟨false, some ⟨true⟩, ⟨false, false, false⟩, ⟨some ⟨false⟩⟩, false⟩
    (fun _ => rfl) (fun hc => nomatch hc)

/-- Counterexample for C7: a state where the projwfc step ran and the
projection counts agree (both 4), yet the results step still raises,
because the electron-count sanity check (10 versus 8) fails; so it is not
true that the results step raises an error only when the projection
counts differ. -/
theorem results_checks_electron_mismatch_counterexample :
    (⟨some ⟨4⟩, 4, 10, 8⟩ : ResultsCtx).calc_projwfc = some ⟨4⟩ ∧
    (⟨some ⟨4⟩, 4, 10, 8⟩ : ResultsCtx).number_of_projections = 4 ∧
    results_checks ⟨some ⟨4⟩, 4, 10, 8⟩ =
      Except.error "number of electrons does not match QE output" := by
  refine ⟨rfl, rfl, ?_⟩
  rfl

/-- C7 (amended): if the projwfc step ran, the results step raises an
error if and only if the number of projections computed from the
structure and pseudopotentials differs from the orbital count reported by
the projwfc projections output, or the computed number of electrons
differs from the QE-reported number of electrons. -/
theorem results_checks_error_iff_mismatch (c : ResultsCtx) (pj : ProjwfcOutputs)
    (h : c.calc_projwfc = some pj) :
    (∃ e, results_checks c = Except.error e) ↔
      (c.number_of_projections ≠ pj.num_orbitals ∨
        c.number_of_electrons ≠ c.qe_number_of_electrons) := by
  unfold results_checks electronCheck
  rw [h]
  by_cases h1 : c.number_of_projections = pj.num_orbitals <;>
    by_cases h2 : c.number_of_electrons = c.qe_number_of_electrons <;>
      simp [h1, h2]

/-- Witness for C7 at a concrete state: projwfc ran reporting 3 orbitals
while 4 projections were computed, so the results step raises. -/
theorem results_checks_error_iff_mismatch_witness :
    ∃ e, results_checks ⟨some ⟨3⟩, 4, 8, 8⟩ = Except.error e :=
  (results_checks_error_iff_mismatch ⟨some ⟨3⟩, 4, 8, 8⟩ ⟨3⟩ rfl).mpr
    (Or.inl (by decide))

/-- Counterexample for C2: with relative_dis_windows True and scf output
parameters from which no Fermi energy can be parsed (get_fermi_energy
returns None for missing units), prepare_wannier90_inputs raises a
ValueError; the workchain therefore excepts instead of returning exit
code 431 to the engine. -/
theorem prepare_no_fermi_counterexample :
    prepare_wannier90_inputs noFermiScfCtx { num_wann := 1 } =
      Except.error
        "relative_dis_windows = True but cannot retrieve Fermi energy from scf or nscf output" :=
  rfl

/-- C2 (amended): when relative_dis_windows is True but no Fermi energy
can be parsed from the scf or nscf outputs, prepare_wannier90_inputs
raises a ValueError (so the step excepts); exit code 431 is declared in
the spec but is never the exit code returned by any inspect step. -/
theorem prepare_no_fermi_raises_value_error (c : W90Ctx) (p : W90Params)
    (h1 : c.relative_dis_windows = true) (h2 : ctxFermi c = none) :
    prepare_wannier90_inputs c p =
      Except.error
        "relative_dis_windows = True but cannot retrieve Fermi energy from scf or nscf output" ∧
    ∀ w : SubWorkchain,
      inspect_relax w ≠ some ERROR_NO_FERMI_FOR_RELATIVE_DIS_WINDOWS ∧
      inspect_scf w ≠ some ERROR_NO_FERMI_FOR_RELATIVE_DIS_WINDOWS ∧
      inspect_nscf w ≠ some ERROR_NO_FERMI_FOR_RELATIVE_DIS_WINDOWS ∧
      inspect_projwfc w ≠ some ERROR_NO_FERMI_FOR_RELATIVE_DIS_WINDOWS ∧
      inspect_wannier90_pp w ≠ some ERROR_NO_FERMI_FOR_RELATIVE_DIS_WINDOWS ∧
      inspect_pw2wannier90 w ≠ some ERROR_NO_FERMI_FOR_RELATIVE_DIS_WINDOWS ∧
      inspect_wannier90 w ≠ some ERROR_NO_FERMI_FOR_RELATIVE_DIS_WINDOWS := by
  constructor
  · unfold prepare_wannier90_inputs
    rw [h2]
    simp [shiftStage, h1, addFermiStage]
  · intro w
    obtain ⟨b⟩ := w
    cases b <;> decide

/-- Witness for C2 at a concrete context (neither scf nor nscf ran, so
no Fermi energy is available): the quantifier-free part of the amended
statement. -/
theorem prepare_no_fermi_raises_value_error_witness :
    prepare_wannier90_inputs noFermiEmptyCtx { num_wann := 1 } =
      Except.error
        "relative_dis_windows = True but cannot retrieve Fermi energy from scf or nscf output" :=
  (prepare_no_fermi_raises_value_error noFermiEmptyCtx { num_wann := 1 } rfl rfl).1

/-- C4: when relative_dis_windows is True and a Fermi energy f was
obtained from the scf or nscf outputs, the shifting block of
prepare_wannier90_inputs succeeds and adds one common shift to each of
dis_froz_min, dis_froz_max, dis_win_min, dis_win_max that is present in
the wannier90 parameters: the shift is the LUMO when the band gap
lumo - homo exceeds 1e-3 and the Fermi energy otherwise; absent
parameters remain absent. (dis_froz_max may be modified again by the
later auto-setting and capping blocks, claims C5.) -/
theorem shift_relative_dis_windows_common_shift
    (c : W90Ctx) (p : W90Params) (f homo lumo : ℚ) (bands : List (List ℚ))
    (hrel : c.relative_dis_windows = true)
    (hf : ctxFermi c = some f)
    (hb : shiftBands c = some bands)
    (hhl : get_homo_lumo bands f = Except.ok (homo, lumo)) :
    ∃ shift, shift = (if lumo - homo > mkRat 1 1000 then lumo else f) ∧
      shiftStage c (ctxFermi c) p = Except.ok (shiftWindowParams p shift) ∧
      (∀ v, p.dis_froz_min = some v → (shiftWindowParams p shift).dis_froz_min = some (v + shift)) ∧
      (p.dis_froz_min = none → (shiftWindowParams p shift).dis_froz_min = none) ∧
      (∀ v, p.dis_froz_max = some v → (shiftWindowParams p shift).dis_froz_max = some (v + shift)) ∧
      (p.dis_froz_max = none → (shiftWindowParams p shift).dis_froz_max = none) ∧
      (∀ v, p.dis_win_min = some v → (shiftWindowParams p shift).dis_win_min = some (v + shift)) ∧
      (p.dis_win_min = none → (shiftWindowParams p shift).dis_win_min = none) ∧
      (∀ v, p.dis_win_max = some v → (shiftWindowParams p shift).dis_win_max = some (v + shift)) ∧
      (p.dis_win_max = none → (shiftWindowParams p shift).dis_win_max = none) := by
  refine ⟨_, rfl, ?_, ?_, ?_, ?_, ?_, ?_, ?_, ?_, ?_⟩
  · rw [hf]
    simp [shiftStage, hrel, hb, hhl]
  all_goals
    first
      | (intro v hv; simp [shiftWindowParams, hv])
      | (intro hv; simp [shiftWindowParams, hv])

/-- Witness for C4 at a concrete context: Fermi energy 5 in eV, bands
[[1, 7]], so homo 1, lumo 7, band gap above 1e-3, shift 7. -/
theorem shift_relative_dis_windows_common_shift_witness :
    shiftStage shiftCtxW (ctxFermi shiftCtxW) windowParamsW =
      Except.ok (shiftWindowParams windowParamsW 7) := by
  obtain ⟨s, hs, h2, -⟩ :=
    shift_relative_dis_windows_common_shift shiftCtxW windowParamsW 5 1 7 [[1, 7]]
      rfl rfl rfl (by rfl)
  have hs7 : s = 7 := by rw [hs]; norm_num
  rwa [hs7] at h2

/-- C5: whenever dis_froz_max is present (holding value v) after the
optional shifting and auto-setting, the final block of
prepare_wannier90_inputs replaces it by min(m - 1e-4, v), where m is the
minimum over the k-points of the energy of band number num_wann (1-based,
counted after removing the excluded bands from the scf or nscf output
bands); in particular the final dis_froz_max is at most v. -/
theorem clamp_dis_froz_max_min_formula
    (c : W90Ctx) (p : W90Params) (v m : ℚ) (bands : List (List ℚ)) (highest : List ℚ)
    (hv : p.dis_froz_max = some v)
    (hb : clampBands c = some bands)
    (hcol : bandColumn (removedBands p bands) (p.num_wann - 1) = Except.ok highest)
    (hm : npMin highest = Except.ok m) :
    clampStage c p = Except.ok { p with dis_froz_max := some (min (m - mkRat 1 10000) v) } ∧
    min (m - mkRat 1 10000) v ≤ v := by
  refine ⟨?_, min_le_right _ _⟩
  simp [clampStage, hv, hb, hcol, hm]

/-- Witness for C5 at a concrete context: nscf bands [[1,5],[2,6]],
exclude_bands [1], num_wann 1, so after removal the first remaining band
takes values 5 and 6, m = 5, and dis_froz_max 100 is capped to
5 - 1e-4. -/
theorem clamp_dis_froz_max_min_formula_witness :
    clampStage clampCtxW clampParamsW =
      Except.ok { clampParamsW with dis_froz_max := some (min ((5 : ℚ) - mkRat 1 10000) 100) } :=
  (clamp_dis_froz_max_min_formula clampCtxW clampParamsW 100 5 [[1, 5], [2, 6]] [5, 6]
    rfl rfl rfl rfl).1

theorem lookup_map_replace {V : Type} (d : List (String × V)) (k : String) (v : V)
    (h : (List.lookup k d).isSome = true) :
    List.lookup k (d.map (fun q => if q.1 = k then (k, v) else q)) = some v := by
  induction d with
  | nil => simp at h
  | cons q rest ih =>
    obtain ⟨a, b⟩ := q
    by_cases hak : a = k
    · subst hak
      simp [List.lookup_cons]
    · have hbeq : (k == a) = false := by simp [Ne.symm hak]
      rw [List.lookup_cons, hbeq] at h
      simp only [List.map_cons, if_neg hak]
      rw [List.lookup_cons, hbeq]
      exact ih h

theorem lookup_map_replace_ne {V : Type} (d : List (String × V)) (k : String) (v : V)
    (q : String) (hq : q ≠ k) :
    List.lookup q (d.map (fun e => if e.1 = k then (k, v) else e)) = List.lookup q d := by
  induction d with
  | nil => simp
  | cons e rest ih =>
    obtain ⟨a, b⟩ := e
    by_cases hak : a = k
    · subst hak
      have h1 : (q == a) = false := by simp [hq]
      simp only [List.map_cons]
      rw [if_pos trivial]
      rw [List.lookup_cons, h1, List.lookup_cons, h1]
      exact ih
    · simp only [List.map_cons, if_neg hak]
      rw [List.lookup_cons, List.lookup_cons]
      cases hqa : (q == a) with
      | true => rfl
      | false => exact ih

theorem lookup_append_left {V : Type} (d e : List (String × V)) (k : String) (v : V)
    (h : List.lookup k d = some v) : List.lookup k (d ++ e) = some v := by
  induction d with
  | nil => simp at h
  | cons q rest ih =>
    obtain ⟨a, b⟩ := q
    rw [List.cons_append, List.lookup_cons]
    rw [List.lookup_cons] at h
    cases hka : (k == a) with
    | true => rw [hka] at h; exact h
    | false => rw [hka] at h; exact ih h

theorem lookup_append_right {V : Type} (d e : List (String × V)) (k : String)
    (h : List.lookup k d = none) : List.lookup k (d ++ e) = List.lookup k e := by
  induction d with
  | nil => rfl
  | cons q rest ih =>
    obtain ⟨a, b⟩ := q
    rw [List.cons_append, List.lookup_cons]
    rw [List.lookup_cons] at h
    cases hka : (k == a) with
    | true => rw [hka] at h; exact absurd h (by simp)
    | false => rw [hka] at h; exact ih h

theorem dictLookup_dictSet_self {V : Type} (d : List (String × V)) (k : String) (v : V) :
    dictLookup (dictSet d k v) k = some v := by
  unfold dictSet dictLookup
  by_cases h : (List.lookup k d).isSome = true
  · rw [if_pos h]
    exact lookup_map_replace d k v h
  · rw [if_neg h]
    have hnone : List.lookup k d = none := by
      rcases hd : List.lookup k d with _ | w
      · rfl
      · rw [hd] at h; simp at h
    rw [lookup_append_right d _ k hnone]
    simp [List.lookup_cons]

theorem dictLookup_dictSet_of_ne {V : Type} (d : List (String × V)) (k : String) (v : V)
    (q : String) (hq : q ≠ k) : dictLookup (dictSet d k v) q = dictLookup d q := by
  unfold dictSet dictLookup
  by_cases h : (List.lookup k d).isSome = true
  · rw [if_pos h]
    exact lookup_map_replace_ne d k v q hq
  · rw [if_neg h]
    rcases hd : List.lookup q d with _ | w
    · rw [lookup_append_right d _ q hd]
      have : (q == k) = false := by simp [hq]
      simp [List.lookup_cons, this]
    · exact lookup_append_left d _ q w hd

theorem update_scdm_inputpp_lookup {V : Type} (p : Pw2wParameters V) (mu_new sigma_new : V)
    (k : String) :
    dictLookup (update_scdm_mu_sigma p mu_new sigma_new).inputpp k =
      if k = "scdm_mu" ∧ (dictLookup p.inputpp "scdm_mu").isNone = true then some mu_new
      else if k = "scdm_sigma" ∧ (dictLookup p.inputpp "scdm_sigma").isNone = true then
        some sigma_new
      else dictLookup p.inputpp k := by
  rcases hmu : dictLookup p.inputpp "scdm_mu" with _ | vmu <;>
    rcases hsig : dictLookup p.inputpp "scdm_sigma" with _ | vsig <;>
      simp only [update_scdm_mu_sigma, hmu, hsig, Option.isSome_none, Option.isSome_some,
        Option.isNone_none, Option.isNone_some, Bool.false_eq_true, if_false, if_true,
        List.cons_append, List.nil_append, List.append_nil, dictUpdate,
        List.foldl_cons, List.foldl_nil]
  · by_cases hk1 : k = "scdm_mu"
    · subst hk1
      rw [dictLookup_dictSet_of_ne _ _ _ _ (by decide), dictLookup_dictSet_self]
      simp
    · by_cases hk2 : k = "scdm_sigma"
      · subst hk2
        rw [dictLookup_dictSet_self]
        simp [hk1]
      · rw [dictLookup_dictSet_of_ne _ _ _ _ hk2, dictLookup_dictSet_of_ne _ _ _ _ hk1]
        simp [hk1, hk2]
  · by_cases hk1 : k = "scdm_mu"
    · subst hk1
      rw [dictLookup_dictSet_self]
      simp
    · rw [dictLookup_dictSet_of_ne _ _ _ _ hk1]
      simp [hk1]
  · by_cases hk2 : k = "scdm_sigma"
    · subst hk2
      rw [dictLookup_dictSet_self]
      simp [hmu]
    · rw [dictLookup_dictSet_of_ne _ _ _ _ hk2]
      simp [hk2]
  · simp [hmu, hsig]

/-- C8: update_scdm_mu_sigma leaves every key already present in the
pw2wannier90 parameters unchanged (both the entries outside inputpp and
every present inputpp binding, in particular a provided scdm_mu or
scdm_sigma keeps its original value); it only adds scdm_mu to inputpp
when scdm_mu is absent and scdm_sigma when scdm_sigma is absent, with the
added values taken from the erfc curve fit, and touches no other key. -/
theorem update_scdm_mu_sigma_frame {V : Type} (p : Pw2wParameters V) (mu_new sigma_new : V) :
    (update_scdm_mu_sigma p mu_new sigma_new).outer = p.outer ∧
    (∀ k v, dictLookup p.inputpp k = some v →
      dictLookup (update_scdm_mu_sigma p mu_new sigma_new).inputpp k = some v) ∧
    (∀ k, k ≠ "scdm_mu" → k ≠ "scdm_sigma" →
      dictLookup (update_scdm_mu_sigma p mu_new sigma_new).inputpp k = dictLookup p.inputpp k) ∧
    (dictLookup p.inputpp "scdm_mu" = none →
      dictLookup (update_scdm_mu_sigma p mu_new sigma_new).inputpp "scdm_mu" = some mu_new) ∧
    (dictLookup p.inputpp "scdm_sigma" = none →
      dictLookup (update_scdm_mu_sigma p mu_new sigma_new).inputpp "scdm_sigma" = some sigma_new) := by
  refine ⟨rfl, ?_, ?_, ?_, ?_⟩
  · intro k v hv
    rw [update_scdm_inputpp_lookup]
    by_cases h1 : k = "scdm_mu" ∧ (dictLookup p.inputpp "scdm_mu").isNone = true
    · obtain ⟨he, hn⟩ := h1
      subst he
      rw [hv] at hn
      simp at hn
    · rw [if_neg h1]
      by_cases h2 : k = "scdm_sigma" ∧ (dictLookup p.inputpp "scdm_sigma").isNone = true
      · obtain ⟨he, hn⟩ := h2
        subst he
        rw [hv] at hn
        simp at hn
      · rw [if_neg h2]
        exact hv
  · intro k hk1 hk2
    rw [update_scdm_inputpp_lookup]
    rw [if_neg (fun hc => hk1 hc.1), if_neg (fun hc => hk2 hc.1)]
  · intro hn
    rw [update_scdm_inputpp_lookup]
    rw [if_pos ⟨rfl, Option.isNone_iff_eq_none.mpr hn⟩]
  · intro hn
    rw [update_scdm_inputpp_lookup]
    rw [if_neg (fun hc => absurd hc.1 (by decide)),
      if_pos ⟨rfl, Option.isNone_iff_eq_none.mpr hn⟩]

/-- Witness for C8 at a concrete parameter dict: scdm_mu is provided with
value 5 and keeps it, scdm_sigma is absent and receives the fitted value
9, and the unrelated key scdm_proj is untouched. -/
theorem update_scdm_mu_sigma_frame_witness :
    dictLookup (update_scdm_mu_sigma
        (⟨[("scdm_mu", (5 : ℚ)), ("scdm_proj", 1)], [("x", 0)]⟩ : Pw2wParameters ℚ)
        7 9).inputpp "scdm_mu" = some 5 ∧
    dictLookup (update_scdm_mu_sigma
        (⟨[("scdm_mu", (5 : ℚ)), ("scdm_proj", 1)], [("x", 0)]⟩ : Pw2wParameters ℚ)
        7 9).inputpp "scdm_sigma" = some 9 ∧
    dictLookup (update_scdm_mu_sigma
        (⟨[("scdm_mu", (5 : ℚ)), ("scdm_proj", 1)], [("x", 0)]⟩ : Pw2wParameters ℚ)
        7 9).inputpp "scdm_proj" = some 1 :=
  ⟨(update_scdm_mu_sigma_frame ⟨[("scdm_mu", (5 : ℚ)), ("scdm_proj", 1)], [("x", 0)]⟩ 7 9).2.1
      "scdm_mu" 5 rfl,
   (update_scdm_mu_sigma_frame ⟨[("scdm_mu", (5 : ℚ)), ("scdm_proj", 1)], [("x", 0)]⟩ 7 9).2.2.2.2
      rfl,
   (update_scdm_mu_sigma_frame ⟨[("scdm_mu", (5 : ℚ)), ("scdm_proj", 1)], [("x", 0)]⟩ 7 9).2.1
      "scdm_proj" 1 rfl⟩

theorem siteWeight_nil : siteWeight [] = 0 := rfl

theorem siteWeight_cons (orb : String) (rest : List String) :
    siteWeight (orb :: rest) = orbNum orb + siteWeight rest := by
  simp [siteWeight]

theorem sitePositions_congr (ps s1 s2 : List String) (n : Nat)
    (h : ∀ x ∈ ps, x ∈ s1 ↔ x ∈ s2) :
    sitePositions s1 ps n = sitePositions s2 ps n := by
  induction ps generalizing n with
  | nil => rfl
  | cons orb rest ih =>
    have hrest : ∀ x ∈ rest, x ∈ s1 ↔ x ∈ s2 := fun x hx => h x (List.mem_cons_of_mem _ hx)
    have hhead := h orb (List.mem_cons_self _ _)
    simp only [sitePositions]
    rw [ih _ hrest]
    by_cases hm : orb ∈ s1
    · rw [if_pos hm, if_pos (hhead.mp hm)]
    · rw [if_neg hm, if_neg (fun hc => hm (hhead.mpr hc))]

theorem siteLoop_eq (ps : List String) (sem : List String) (n : Nat)
    (hval : ∀ orb ∈ ps, validOrb orb = true)
    (hsem : sem.Nodup) (hps : ps.Nodup) :
    siteLoop ps sem n =
      Except.ok (sitePositions sem ps n,
        sem.filter (fun x => decide (x ∉ ps)), n + siteWeight ps) := by
  induction ps generalizing sem n with
  | nil =>
    simp [siteLoop, sitePositions, siteWeight_nil]
  | cons orb rest ih =>
    have hvo : ((lastChar orb).bind label2num).isSome = true := hval orb (List.mem_cons_self _ _)
    obtain ⟨m, hm⟩ := Option.isSome_iff_exists.mp hvo
    obtain ⟨ch, hch, hl⟩ := Option.bind_eq_some.mp hm
    have horb : orbNum orb = m := by rw [orbNum, hm]; rfl
    have hrestval : ∀ o ∈ rest, validOrb o = true :=
      fun o ho => hval o (List.mem_cons_of_mem _ ho)
    have horbrest : orb ∉ rest := (List.nodup_cons.mp hps).1
    have hrestnodup : rest.Nodup := (List.nodup_cons.mp hps).2
    by_cases hmem : orb ∈ sem
    · simp only [siteLoop, hch, hl]
      rw [if_pos hmem, ih (sem.erase orb) (n + m) hrestval (hsem.erase _) hrestnodup]
      have e1 : sitePositions (sem.erase orb) rest (n + m) = sitePositions sem rest (n + m) := by
        apply sitePositions_congr
        intro x hx
        have hxo : x ≠ orb := fun heq2 => horbrest (heq2 ▸ hx)
        rw [hsem.mem_erase_iff]
        exact ⟨fun hc => hc.2, fun hc => ⟨hxo, hc⟩⟩
      have e2 : (sem.erase orb).filter (fun x => decide (x ∉ rest)) =
          sem.filter (fun x => decide (x ∉ orb :: rest)) := by
        rw [hsem.erase_eq_filter, List.filter_filter]
        apply List.filter_congr
        intro x hx
        by_cases hxo : x = orb
        · subst hxo
          simp [hmem]
        · simp [List.mem_cons, hxo]
      rw [e1, e2]
      simp only [sitePositions, if_pos hmem, horb, siteWeight_cons, Except.ok.injEq,
        Prod.mk.injEq]
      refine ⟨trivial, trivial, by omega⟩
    · simp only [siteLoop, hch, hl]
      rw [if_neg hmem, ih sem (n + m) hrestval hsem hrestnodup]
      have e2 : sem.filter (fun x => decide (x ∉ rest)) =
          sem.filter (fun x => decide (x ∉ orb :: rest)) := by
        apply List.filter_congr
        intro x hx
        have hxo : x ≠ orb := fun heq2 => hmem (heq2 ▸ hx)
        simp [List.mem_cons, hxo]
      rw [e2]
      simp only [sitePositions, if_neg hmem, horb, siteWeight_cons, Except.ok.injEq,
        Prod.mk.injEq, List.nil_append]
      refine ⟨trivial, trivial, by omega⟩

theorem sitesLoop_eq (tbl : String → OrbitalEntry) (sites : List String) (n : Nat)
    (hval : ∀ k ∈ sites, ∀ orb ∈ (tbl k).pswfcs, validOrb orb = true)
    (hps : ∀ k ∈ sites, (tbl k).pswfcs.Nodup)
    (hsem : ∀ k ∈ sites, (tbl k).semicores.Nodup)
    (hsub : ∀ k ∈ sites, ∀ x ∈ (tbl k).semicores, x ∈ (tbl k).pswfcs) :
    sitesLoop tbl sites n =
      Except.ok (SemicoreReturn.indices (expectedPositions tbl sites n)) := by
  induction sites generalizing n with
  | nil => rfl
  | cons k rest ih =>
    have hmem := List.mem_cons_self k rest
    have hempty : (tbl k).semicores.filter (fun x => decide (x ∉ (tbl k).pswfcs)) = [] := by
      apply List.filter_eq_nil_iff.mpr
      intro a ha
      simp [hsub k hmem a ha]
    have hih := ih (n + siteWeight (tbl k).pswfcs)
      (fun k2 hk2 => hval k2 (List.mem_cons_of_mem _ hk2))
      (fun k2 hk2 => hps k2 (List.mem_cons_of_mem _ hk2))
      (fun k2 hk2 => hsem k2 (List.mem_cons_of_mem _ hk2))
      (fun k2 hk2 => hsub k2 (List.mem_cons_of_mem _ hk2))
    simp only [sitesLoop]
    rw [siteLoop_eq _ _ _ (hval k hmem) (hsem k hmem) (hps k hmem), hempty]
    simp [hih, expectedPositions]

theorem sitePositions_bounds (sem ps : List String) (n : Nat) :
    ∀ x ∈ sitePositions sem ps n, n < x ∧ x ≤ n + siteWeight ps := by
  induction ps generalizing n with
  | nil =>
    intro x hx
    simp [sitePositions] at hx
  | cons orb rest ih =>
    intro x hx
    simp only [sitePositions, List.mem_append] at hx
    rcases hx with h | h
    · by_cases hm : orb ∈ sem
      · rw [if_pos hm] at h
        have := List.mem_range'_1.mp h
        rw [siteWeight_cons]
        omega
      · rw [if_neg hm] at h
        simp at h
    · have := ih (n + orbNum orb) x h
      rw [siteWeight_cons]
      omega

theorem sitePositions_pairwise (sem ps : List String) (n : Nat) :
    List.Pairwise (· < ·) (sitePositions sem ps n) := by
  induction ps generalizing n with
  | nil => simp [sitePositions]
  | cons orb rest ih =>
    simp only [sitePositions]
    rw [List.pairwise_append]
    refine ⟨?_, ih _, ?_⟩
    · by_cases hm : orb ∈ sem
      · rw [if_pos hm]
        exact List.pairwise_lt_range' _ _
      · rw [if_neg hm]
        exact List.Pairwise.nil
    · intro a ha b hb
      have hb2 := (sitePositions_bounds sem rest (n + orbNum orb) b hb).1
      by_cases hm : orb ∈ sem
      · rw [if_pos hm] at ha
        have := List.mem_range'_1.mp ha
        omega
      · rw [if_neg hm] at ha
        simp at ha

theorem expectedPositions_lower_bound (tbl : String → OrbitalEntry) (sites : List String)
    (n : Nat) : ∀ x ∈ expectedPositions tbl sites n, n < x := by
  induction sites generalizing n with
  | nil =>
    intro x hx
    simp [expectedPositions] at hx
  | cons k rest ih =>
    intro x hx
    simp only [expectedPositions, List.mem_append] at hx
    rcases hx with h | h
    · exact (sitePositions_bounds _ _ _ x h).1
    · have := ih (n + siteWeight (tbl k).pswfcs) x h
      omega

theorem expectedPositions_pairwise (tbl : String → OrbitalEntry) (sites : List String)
    (n : Nat) : List.Pairwise (· < ·) (expectedPositions tbl sites n) := by
  induction sites generalizing n with
  | nil => simp [expectedPositions]
  | cons k rest ih =>
    simp only [expectedPositions]
    rw [List.pairwise_append]
    refine ⟨sitePositions_pairwise _ _ _, ih _, ?_⟩
    intro a ha b hb
    have ha2 := (sitePositions_bounds _ _ _ a ha).2
    have hb2 := expectedPositions_lower_bound tbl rest _ b hb
    omega

theorem siteLoop_ok_of_valid (ps : List String) (sem : List String) (n : Nat)
    (hval : ∀ orb ∈ ps, validOrb orb = true) :
    ∃ pos semRest, siteLoop ps sem n = Except.ok (pos, semRest, n + siteWeight ps) ∧
      ∀ x ∈ sem, x ∉ ps → x ∈ semRest := by
  induction ps generalizing sem n with
  | nil =>
    refine ⟨[], sem, ?_, fun x hx _ => hx⟩
    simp [siteLoop, siteWeight_nil]
  | cons orb rest ih =>
    have hvo : ((lastChar orb).bind label2num).isSome = true := hval orb (List.mem_cons_self _ _)
    obtain ⟨m, hm⟩ := Option.isSome_iff_exists.mp hvo
    obtain ⟨ch, hch, hl⟩ := Option.bind_eq_some.mp hm
    have horb : orbNum orb = m := by rw [orbNum, hm]; rfl
    have hrestval : ∀ o ∈ rest, validOrb o = true :=
      fun o ho => hval o (List.mem_cons_of_mem _ ho)
    by_cases hmem : orb ∈ sem
    · obtain ⟨pos, semRest, heq, hsub2⟩ := ih (sem.erase orb) (n + m) hrestval
      refine ⟨List.range' (n + 1) m ++ pos, semRest, ?_, ?_⟩
      · simp only [siteLoop, hch, hl]
        rw [if_pos hmem, heq, siteWeight_cons, horb, Nat.add_assoc]
      · intro x hx hnx
        have hxo : x ≠ orb := fun heq2 => hnx (heq2 ▸ List.mem_cons_self _ _)
        have hxrest : x ∉ rest := fun hr => hnx (List.mem_cons_of_mem _ hr)
        exact hsub2 x ((List.mem_erase_of_ne hxo).mpr hx) hxrest
    · obtain ⟨pos, semRest, heq, hsub2⟩ := ih sem (n + m) hrestval
      refine ⟨pos, semRest, ?_, ?_⟩
      · simp only [siteLoop, hch, hl]
        rw [if_neg hmem, heq, siteWeight_cons, horb, Nat.add_assoc]
      · intro x hx hnx
        exact hsub2 x hx (fun hr => hnx (List.mem_cons_of_mem _ hr))

theorem sitesLoop_value_error (tbl : String → OrbitalEntry) (sites : List String) (n : Nat)
    (hval : ∀ k ∈ sites, ∀ orb ∈ (tbl k).pswfcs, validOrb orb = true)
    (hbad : ∃ k ∈ sites, ∃ x ∈ (tbl k).semicores, x ∉ (tbl k).pswfcs) :
    isValueErrorReturn (sitesLoop tbl sites n) = true := by
  induction sites generalizing n with
  | nil => simp at hbad
  | cons k rest ih =>
    have hmem := List.mem_cons_self k rest
    obtain ⟨pos, semRest, heq, hsub2⟩ :=
      siteLoop_ok_of_valid (tbl k).pswfcs (tbl k).semicores n (hval k hmem)
    simp only [sitesLoop, heq]
    by_cases hre : semRest = []
    · have hbadrest : ∃ k2 ∈ rest, ∃ x ∈ (tbl k2).semicores, x ∉ (tbl k2).pswfcs := by
        obtain ⟨k2, hk2, x, hx, hnx⟩ := hbad
        rcases List.mem_cons.mp hk2 with hk2eq | hk2rest
        · subst hk2eq
          exact absurd (hre ▸ hsub2 x hx hnx) (List.not_mem_nil x)
        · exact ⟨k2, hk2rest, x, hx, hnx⟩
      rw [if_pos hre]
      have hrest := ih (n + siteWeight (tbl k).pswfcs)
        (fun k2 hk2 => hval k2 (List.mem_cons_of_mem _ hk2)) hbadrest
      rcases hres : sitesLoop tbl rest (n + siteWeight (tbl k).pswfcs) with e | r
      · rw [hres] at hrest
        simp [isValueErrorReturn] at hrest
      · rcases r with l | kind
        · rw [hres] at hrest
          simp [isValueErrorReturn] at hrest
        · simp [isValueErrorReturn]
    · rw [if_neg hre]
      simp [isValueErrorReturn]

/-- Counterexample for C6: a pseudo-orbital table in which the single
semicore label 5S of the only site does occur among the pswfcs labels, but
is listed twice in the semicores list; get_semicore_list then hands back a
ValueError instance instead of the position list [1], so the claim fails
as stated for tables with repeated semicore labels. -/
theorem get_semicore_list_duplicate_semicore_counterexample :
    (dupSemicoreTbl "A").pswfcs = ["5S"] ∧
    (dupSemicoreTbl "A").semicores = ["5S", "5S"] ∧
    "5S" ∈ (dupSemicoreTbl "A").pswfcs ∧
    get_semicore_list ["A"] dupSemicoreTbl = Except.ok (SemicoreReturn.valueErrorObj "A") :=
  ⟨rfl, rfl, List.mem_cons_self _ _, rfl⟩

/-- C6 (amended): for every structure and pseudo-orbital table in which
each site has duplicate-free pswfcs and semicores label lists, every
semicore label occurs among the pswfcs labels, and every pswfcs label ends
in S, P, D or F, get_semicore_list returns (without raising) exactly the
1-based positions occupied by the semicore orbitals — each orbital ending
in S, P, D, F occupying 1, 3, 5, 7 consecutive positions and positions
accumulating over the sites in order — and the returned list is strictly
increasing. -/
theorem get_semicore_list_positions_sorted (sites : List String) (tbl : String → OrbitalEntry)
    (hval : ∀ k ∈ sites, ∀ orb ∈ (tbl k).pswfcs, validOrb orb = true)
    (hps : ∀ k ∈ sites, (tbl k).pswfcs.Nodup)
    (hsem : ∀ k ∈ sites, (tbl k).semicores.Nodup)
    (hsub : ∀ k ∈ sites, ∀ x ∈ (tbl k).semicores, x ∈ (tbl k).pswfcs) :
    get_semicore_list sites tbl =
      Except.ok (SemicoreReturn.indices (expectedPositions tbl sites 0)) ∧
    List.Pairwise (· < ·) (expectedPositions tbl sites 0) :=
  ⟨sitesLoop_eq tbl sites 0 hval hps hsem hsub, expectedPositions_pairwise tbl sites 0⟩

/-- Witness for C6 at the Ce entry quoted in the source: semicores 5S and
5P occupy positions 1 and 3,4,5 of the 32 pswfc positions. -/
theorem get_semicore_list_positions_sorted_witness :
    get_semicore_list ["Ce"] ceTbl =
      Except.ok (SemicoreReturn.indices (expectedPositions ceTbl ["Ce"] 0)) ∧
    expectedPositions ceTbl ["Ce"] 0 = [1, 3, 4, 5] :=
  ⟨(get_semicore_list_positions_sorted ["Ce"] ceTbl
      (by decide) (by decide) (by decide) (by decide)).1,
   by decide⟩

/-- Counterexample for C10: a table whose semicore label 6S is not among
the pswfcs labels, so the claim applies, but whose pswfcs label 5X does
not end in S, P, D or F; the loop then raises a KeyError at
label2num[orb[-1]] (line 1469) before reaching the return at line 1475,
so get_semicore_list does raise an exception instead of returning a
ValueError instance. -/
theorem get_semicore_list_invalid_label_counterexample :
    (keyErrorTbl "C").pswfcs = ["5X"] ∧
    (keyErrorTbl "C").semicores = ["6S"] ∧
    "6S" ∉ (keyErrorTbl "C").pswfcs ∧
    get_semicore_list ["C"] keyErrorTbl = Except.error "KeyError: label2num" :=
  ⟨rfl, rfl, by decide, rfl⟩

/-- C10 (amended): when every pswfcs label ends in S, P, D or F and some
semicore label of a site is not among that site's pswfcs labels,
get_semicore_list does not raise: it returns normally, and the returned
value is a ValueError instance (not a list of indices), which the caller
receives as an ordinary return value. -/
theorem get_semicore_list_returns_value_error (sites : List String)
    (tbl : String → OrbitalEntry)
    (hval : ∀ k ∈ sites, ∀ orb ∈ (tbl k).pswfcs, validOrb orb = true)
    (hbad : ∃ k ∈ sites, ∃ x ∈ (tbl k).semicores, x ∉ (tbl k).pswfcs) :
    isValueErrorReturn (get_semicore_list sites tbl) = true :=
  sitesLoop_value_error tbl sites 0 hval hbad

/-- Witness for C10 at a concrete table whose semicore label 6S does not
occur among the pswfcs labels. -/
theorem get_semicore_list_returns_value_error_witness :
    isValueErrorReturn (get_semicore_list ["B"] badSemicoreTbl) = true :=
  get_semicore_list_returns_value_error ["B"] badSemicoreTbl (by decide) (by decide)
